import Mathlib

/-!
Shallow embedding of the PREvant Kubernetes resource-synthesis engine
(`src/api/src/infrastructure/kubernetes/payloads.rs`) and of the derived
backend-abstraction helper (`src/api/src/infrastructure/infrastructure.rs`).

Rust data is translated as follows: `String` stays `String`, `Option` stays
`Option`, `Vec` becomes `List`, `BTreeMap`/`HashMap`/`MultiMap` become
association lists (with a comment wherever iteration order of the Rust
collection is relevant), `u16`/`u32`/`u64` become `Nat` (no arithmetic is
performed on them), `SecUtf8` becomes `String`.  `Utc::now()` is passed in as
an explicit `now : String` argument, and the external `base64` engine is
passed in as an explicit function argument.  A Rust `.unwrap()` panic is
modelled by the `Outcome.fatal` constructor.
-/

/-- Model of `std::path::PathBuf` restricted to the shapes the synthesis code
consumes: an optional leading root plus a list of normal components. -/
structure PathBuf where
  absolute : Bool
  components : List String
deriving DecidableEq

/-- Model of `Path::parent`: the path without its final component, `none` if
the path is a bare root or empty. -/
def PathBuf.parent (p : PathBuf) : Option PathBuf :=
  match p.components with
  | [] => none
  | _ => some ⟨p.absolute, p.components.dropLast⟩

/-- Model of `Path::file_name`: the final normal component. -/
def PathBuf.fileName (p : PathBuf) : Option String :=
  p.components.getLast?

/-- Model of `Path::to_string_lossy` for the path shapes above. -/
def PathBuf.render (p : PathBuf) : String :=
  (if p.absolute then ("/") else ("")) ++ String.intercalate ("/") p.components

/-- Model of `str::replace(".", "-")`: every dot replaced by a dash (the
pattern is a single character, so a character map is exact); written on the
character list so the kernel can evaluate it. -/
def dots_to_dashes (s : String) : String :=
  String.mk (s.data.map (fun c => if c == '.' then '-' else c))

/-- Transcription of the `secret_name_from_path!` declaration in
`payloads.rs`: the non-empty normal components, dots replaced by dashes,
joined with dashes (the root component maps to the empty string and is
filtered out). -/
def secret_name_from_path (p : PathBuf) : String :=
  String.intercalate ("-")
    ((p.components.filter (fun c => !c.data.isEmpty)).map dots_to_dashes)

/-- Transcription of the `secret_name_from_name!` declaration in
`payloads.rs`: the file name with dots replaced by dashes, empty when the path
has no file name. -/
def secret_name_from_name (p : PathBuf) : String :=
  ((p.fileName).map dots_to_dashes).getD ("")

/-- Model of `AppName` (`crate::models::AppName`): a wrapper around the raw,
possibly mixed-case display name; `Display` renders the raw name (visible in
the repository's tests, e.g. the `MY-APP` label assertions). -/
structure AppName where
  raw : String
deriving DecidableEq

/-- Transcription of `AppName::to_rfc1123_namespace_id` in `payloads.rs`:
lowercase of the raw name. -/
def AppName.to_rfc1123_namespace_id (a : AppName) : String :=
  String.mk (a.raw.data.map Char.toLower)

/-- Modelled from the spec: `AppName::from_str`, the application-identifier
validity check, lives in `crate::models` and is not under `src/`.  The spec
describes an identifier as a human-supplied name whose normalized form is its
lowercase; we model validity as a non-empty name made of ASCII alphanumerics
and dashes, which accepts the identifiers appearing in the repository's tests
(`master`, `MY-APP`) and rejects strings with other punctuation. -/
def AppName.from_str (s : String) : Option AppName :=
  if !s.data.isEmpty && s.data.all (fun c => c.isAlphanum || c == '-') then some ⟨s⟩
  else none

/-- Label key `APP_NAME_LABEL` from `crate::infrastructure` (value visible in
the repository's tests). -/
def APP_NAME_LABEL : String := "com.aixigo.preview.servant.app-name"

/-- Label key `SERVICE_NAME_LABEL`. -/
def SERVICE_NAME_LABEL : String := "com.aixigo.preview.servant.service-name"

/-- Label key `CONTAINER_TYPE_LABEL`. -/
def CONTAINER_TYPE_LABEL : String := "com.aixigo.preview.servant.container-type"

/-- Label key `IMAGE_LABEL`. -/
def IMAGE_LABEL : String := "com.aixigo.preview.servant.image"

/-- Label key `REPLICATED_ENV_LABEL`. -/
def REPLICATED_ENV_LABEL : String := "com.aixigo.preview.servant.replicated-env"

/-- Label key `STORAGE_TYPE_LABEL`. -/
def STORAGE_TYPE_LABEL : String := "com.aixigo.preview.servant.storage-type"

/-- Model of `ContainerType` (`crate::models::ContainerType`): the four
container roles of the data model. -/
inductive ContainerType where
  | Instance
  | Replica
  | ApplicationCompanion
  | AppCompanion
deriving DecidableEq

/-- Display form of a container role; `instance` is visible in the
repository's tests, the remaining forms follow the spec's role names. -/
def ContainerType.render (c : ContainerType) : String :=
  match c with
  | .Instance => "instance"
  | .Replica => "replica"
  | .ApplicationCompanion => "application-companion"
  | .AppCompanion => "app-companion"

/-- Model of one environment variable of a descriptor: key, secret value, and
the templating/replication markers the annotation summary serializes. -/
structure EnvironmentVariable where
  key : String
  value : String
  templated : Bool
  replicate : Bool
deriving DecidableEq

/-- Model of `DeploymentStrategy` (`crate::deployment::deployment_unit`). -/
inductive DeploymentStrategy where
  | redeployOnImageUpdate (image_id : String)
  | redeployNever
  | redeployAlways
deriving DecidableEq

/-- Modelled from the spec: `TraefikRouterRule`, the typed match-rule
representation, lives in `crate::infrastructure::traefik` and is not under
`src/`; the spec treats it as an opaque parseable string, so the model wraps
the rendered rule string. -/
structure TraefikRouterRule where
  raw : String
deriving DecidableEq

/-- Model of `TraefikMiddleware` (`crate::infrastructure::traefik`): either a
named reference or an inline specification; the opaque JSON spec is modelled
as an opaque string. -/
inductive TraefikMiddleware where
  | ref (name : String)
  | spec (name : String) (spec : String)
deriving DecidableEq

/-- Model of one route entry of the internal `TraefikIngressRoute` model: the
match rule plus its ordered middleware references. -/
structure TraefikRouteEntry where
  rule : TraefikRouterRule
  middlewares : List TraefikMiddleware
deriving DecidableEq

/-- Model of `DeployableService`: the descriptor fields the synthesis
functions under verification read (the Rust wrapper around `ServiceConfig` is
flattened). -/
structure DeployableService where
  service_name : String
  image : String
  container_type : ContainerType
  port : Nat
  env : Option (List EnvironmentVariable)
  files : Option (List (PathBuf × String))
  strategy : DeploymentStrategy
  routes : List TraefikRouteEntry
deriving DecidableEq

/-- Model of `ContainerConfig`: only the optional memory ceiling is read by
`deployment_payload`. -/
structure ContainerConfig where
  memory_limit : Option Nat
deriving DecidableEq

/-- Model of `ServiceConfig` restricted to the fields read by the functions
under verification. -/
structure ServiceConfig where
  service_name : String
  container_type : ContainerType
deriving DecidableEq

/-- Model of a realized `Service` as read by `get_configs_of_app`: its
container role and its configuration. -/
structure Service where
  container_type : ContainerType
  config : ServiceConfig
deriving DecidableEq

/-- Model of the Kubernetes runtime settings read by `namespace_payload`: the
active runtime kind, with the operator-supplied namespace annotation map for
the Kubernetes kind. -/
inductive Runtime where
  | docker
  | kubernetes (namespaceAnnotations : List (String × String))
deriving DecidableEq

/-- Model of `Config`: only `runtime_config()` is read. -/
structure Config where
  runtime : Runtime
deriving DecidableEq

/-- Model of `kube::core::ObjectMeta` restricted to the fields the synthesis
code writes; `ns` stands for the `namespace` field. -/
structure ObjectMeta where
  name : Option String := none
  generateName : Option String := none
  ns : Option String := none
  labels : Option (List (String × String)) := none
  annotations : Option (List (String × String)) := none
deriving DecidableEq

/-- Model of `core/v1 VolumeMount` (fields written by the code). -/
structure VolumeMount where
  name : String
  mountPath : String
deriving DecidableEq

/-- Model of `core/v1 KeyToPath`. -/
structure KeyToPath where
  key : String
  path : String
deriving DecidableEq

/-- Model of `core/v1 SecretVolumeSource` (fields written by the code). -/
structure SecretVolumeSource where
  secretName : Option String := none
  items : Option (List KeyToPath) := none
deriving DecidableEq

/-- Model of `core/v1 PersistentVolumeClaimVolumeSource`. -/
structure PersistentVolumeClaimVolumeSource where
  claimName : String
deriving DecidableEq

/-- Model of `core/v1 Volume` (fields written by the code). -/
structure Volume where
  name : String
  secret : Option SecretVolumeSource := none
  persistentVolumeClaim : Option PersistentVolumeClaimVolumeSource := none
deriving DecidableEq

/-- Model of `core/v1 EnvVar` (fields written by the code). -/
structure EnvVar where
  name : String
  value : Option String := none
deriving DecidableEq

/-- Model of `core/v1 LocalObjectReference`. -/
structure LocalObjectReference where
  name : Option String := none
deriving DecidableEq

/-- Model of `core/v1 Container` (fields written by the code); `ports` holds
the declared container-port numbers, `resources` the limits map. -/
structure Container where
  name : String
  image : Option String := none
  imagePullPolicy : Option String := none
  env : Option (List EnvVar) := none
  volumeMounts : Option (List VolumeMount) := none
  ports : Option (List Nat) := none
  resources : Option (List (String × String)) := none
deriving DecidableEq

/-- Model of `core/v1 PodSpec` (fields written by the code). -/
structure PodSpec where
  volumes : Option (List Volume) := none
  containers : List Container
  imagePullSecrets : Option (List LocalObjectReference) := none
deriving DecidableEq

/-- Model of `core/v1 PodTemplateSpec`. -/
structure PodTemplateSpec where
  metadata : Option ObjectMeta := none
  spec : Option PodSpec := none
deriving DecidableEq

/-- Model of `meta/v1 LabelSelector` (only `match_labels` is written). -/
structure LabelSelector where
  matchLabels : Option (List (String × String)) := none
deriving DecidableEq

/-- Model of `apps/v1 DeploymentSpec` (fields written by the code). -/
structure DeploymentSpec where
  replicas : Option Nat := none
  selector : LabelSelector
  template : PodTemplateSpec
deriving DecidableEq

/-- Model of `apps/v1 Deployment`. -/
structure V1Deployment where
  metadata : ObjectMeta
  spec : Option DeploymentSpec := none
deriving DecidableEq

/-- Model of `core/v1 Namespace`. -/
structure V1Namespace where
  metadata : ObjectMeta
deriving DecidableEq

/-- Model of `core/v1 Secret` (fields effectively set by `secrets_payload`;
the stray label keys the Rust code places directly inside the metadata JSON
object are not `ObjectMeta` fields and are dropped on deserialization). -/
structure V1Secret where
  metadata : ObjectMeta
  type_ : Option String := none
  data : Option (List (String × String)) := none
deriving DecidableEq

/-- Model of `core/v1 PersistentVolumeClaim` restricted to the metadata,
which is all the deployment-synthesis functions under verification read. -/
structure PersistentVolumeClaim where
  metadata : ObjectMeta
deriving DecidableEq

/-- Model of the Traefik `TraefikRuleMiddleware` payload struct. -/
structure TraefikRuleMiddleware where
  name : String
deriving DecidableEq

/-- Model of the Traefik `TraefikRuleService` payload struct. -/
structure TraefikRuleService where
  kind : Option String := none
  name : String
  port : Option Nat := none
deriving DecidableEq

/-- Model of the Traefik `TraefikRuleSpec` payload struct; `matchRule` stands
for the raw `match` field. -/
structure TraefikRuleSpec where
  kind : String
  matchRule : String
  services : List TraefikRuleService
  middlewares : Option (List TraefikRuleMiddleware) := none
deriving DecidableEq

/-- Model of the Traefik `TraefikTls` payload struct. -/
structure TraefikTls where
  certResolver : Option String := none
deriving DecidableEq

/-- Model of the Traefik `IngressRouteSpec` payload struct. -/
structure IngressRouteSpec where
  entrypoints : Option (List String) := none
  routes : Option (List TraefikRuleSpec) := none
  tls : Option TraefikTls := none
deriving DecidableEq

/-- Model of the `IngressRoute` custom resource. -/
structure IngressRoute where
  metadata : ObjectMeta := {}
  spec : IngressRouteSpec
deriving DecidableEq

/-- Model of the `Middleware` custom resource; the opaque `MiddlewareSpec`
JSON value is modelled as an opaque string. -/
structure Middleware where
  metadata : ObjectMeta
  spec : String
deriving DecidableEq

/-- Modelled from the spec: the internal routing-route model
(`TraefikIngressRoute` in `crate::infrastructure::traefik`, not under `src/`)
as reconstructed by `with_existing_routing_rules`: entrypoints, the parsed
rule, middleware names reduced to references, and the TLS resolver. -/
structure TraefikIngressRoute where
  entrypoints : List String
  rule : TraefikRouterRule
  middlewares : List String
  certResolver : Option String
deriving DecidableEq

/-- Result of running a piece of Rust code that may panic: `fatal` models an
`unwrap` panic (process abort), `ret` a normal return. -/
inductive Outcome (α : Type) where
  | fatal
  | ret (value : α)
deriving DecidableEq

/-- Transcription of `TryFrom<IngressRoute> for TraefikIngressRoute` in
`payloads.rs`.  The dedicated rule parser `TraefikRouterRule::from_str` lives
outside `src/` and is passed in as `from_str_rule`.  The Rust body calls
`.unwrap()` on the stored route list, on its first element, and on the parse
result; each such call is modelled as `Outcome.fatal`.  The declared error
type (`&'static str`) is kept in the return type; note that the body never
constructs an `Err`. -/
def try_from (from_str_rule : String → Option TraefikRouterRule) (value : IngressRoute) :
    Outcome (Except String TraefikIngressRoute) :=
  match value.spec.routes with
  | none => Outcome.fatal
  | some routes =>
    match routes with
    | [] => Outcome.fatal
    | k8s_route :: _ =>
      match from_str_rule k8s_route.matchRule with
      | none => Outcome.fatal
      | some rule =>
        Outcome.ret (Except.ok
          { entrypoints := (value.spec.entrypoints).getD []
            rule := rule
            middlewares := ((k8s_route.middlewares).getD []).map (fun m => m.name)
            certResolver := ((value.spec.tls).getD {}).certResolver })

/-- Transcription of `namespace_payload` in `payloads.rs`: the annotations are
omitted for the Docker runtime and for an empty operator-supplied map, the
name is the normalized identifier, and the label records the raw name. -/
def namespace_payload (app_name : AppName) (config : Config) : V1Namespace :=
  let annotations : Option (List (String × String)) :=
    match config.runtime with
    | Runtime.docker => none
    | Runtime.kubernetes runtime_annotations =>
      if runtime_annotations.isEmpty then none else some runtime_annotations
  { metadata :=
      { name := some app_name.to_rfc1123_namespace_id
        annotations := annotations
        labels := some [(APP_NAME_LABEL, app_name.raw)] } }

/-- Modelled from the spec: `replicated_environment_variable_to_json` lives
in `crate::infrastructure` (not under `src/`).  Per the spec it returns a
serialized summary of the replicated environment variables when at least one
variable is marked for replication, and nothing otherwise; the serialization
format itself is opaque to every claim and is modelled as a simple
key/value/flag rendering. -/
def replicated_environment_variable_to_json (env : List EnvironmentVariable) :
    Option String :=
  let replicated := env.filter (fun e => e.replicate)
  if replicated.isEmpty then none
  else some (String.intercalate (",")
    (replicated.map (fun e =>
      e.key ++ ("=") ++ e.value ++ (";templated=") ++ (toString e.templated))))

/-- Transcription of `deployment_annotations` in `payloads.rs`; `Utc::now()`
is passed in as `now`. -/
def deployment_annotations (now : String) (strategy : DeploymentStrategy) :
    List (String × String) :=
  match strategy with
  | DeploymentStrategy.redeployOnImageUpdate image_id => [(("imageHash"), image_id)]
  | DeploymentStrategy.redeployNever => []
  | DeploymentStrategy.redeployAlways => [(("date"), now)]

/-- Transcription of the workload-metadata annotation block of
`deployment_payload`: the image reference, plus the replicated-environment
summary when one exists (list written in `BTreeMap` key order). -/
def deployment_meta_annotations (service : DeployableService) : List (String × String) :=
  match (service.env).bind replicated_environment_variable_to_json with
  | some replicated_env =>
    [(IMAGE_LABEL, service.image), (REPLICATED_ENV_LABEL, replicated_env)]
  | none => [(IMAGE_LABEL, service.image)]

/-- Transcription of the label block of `deployment_payload` (list written in
`BTreeMap` key order: app-name, container-type, service-name). -/
def deployment_labels (app_name : AppName) (service : DeployableService) :
    List (String × String) :=
  [(APP_NAME_LABEL, app_name.raw),
   (CONTAINER_TYPE_LABEL, service.container_type.render),
   (SERVICE_NAME_LABEL, service.service_name)]

/-- Transcription of the file-backed volume-mount block of
`deployment_payload`: one mount per distinct parent directory of the mounted
files.  The Rust code collects the parents into a `HashSet`, whose iteration
order is unspecified; the set is modelled by `List.dedup`. -/
def file_volume_mounts (service : DeployableService) : Option (List VolumeMount) :=
  (service.files).map (fun files =>
    let parent_paths := (files.filterMap (fun fc => fc.1.parent)).dedup
    parent_paths.map (fun path =>
      { name := secret_name_from_path path, mountPath := path.render }))

/-- Transcription of the `MultiMap` grouping inside the file-backed volume
block of `deployment_payload`: the mounted files grouped by parent directory
(`HashMap` key order is unspecified and is modelled by `List.dedup`; the
paths of one group keep their original relative order). -/
def group_by_parent (files : List (PathBuf × String)) : List (PathBuf × List PathBuf) :=
  let parents := (files.filterMap (fun fc => fc.1.parent)).dedup
  parents.map (fun parent =>
    (parent, (files.filter (fun fc => fc.1.parent == some parent)).map (fun fc => fc.1)))

/-- Transcription of the file-backed volume block of `deployment_payload`:
one secret-backed volume per parent-directory group; note that the referenced
secret name interpolates the raw `app_name` (`Display`), not the normalized
identifier. -/
def file_volumes (app_name : AppName) (service : DeployableService) :
    Option (List Volume) :=
  (service.files).map (fun files =>
    (group_by_parent files).map (fun group =>
      let items := group.2.map (fun path =>
        { key := secret_name_from_name path
          path := (path.fileName).getD ("") : KeyToPath })
      { name := secret_name_from_path group.1
        secret := some
          { secretName := some (app_name.raw ++ ("-") ++ service.service_name ++ ("-secret"))
            items := some items } }))

/-- Transcription of `pvc_volume_mount_payload` in `payloads.rs`. -/
def pvc_volume_mount_payload (path : String)
    (persistent_volume_claim : PersistentVolumeClaim) : VolumeMount :=
  { name :=
      ((((persistent_volume_claim.metadata.labels).getD []).lookup STORAGE_TYPE_LABEL).getD
        ("default")) ++ ("-volume")
    mountPath := path }

/-- Transcription of `pvc_volume_payload` in `payloads.rs`. -/
def pvc_volume_payload (persistent_volume_claim : PersistentVolumeClaim) : Volume :=
  { name :=
      ((((persistent_volume_claim.metadata.labels).getD []).lookup STORAGE_TYPE_LABEL).getD
        ("default")) ++ ("-volume")
    persistentVolumeClaim := some
      { claimName := (persistent_volume_claim.metadata.name).getD ("") } }

/-- Transcription of the volume-mount merge in `deployment_payload`: the
external-volume-binding mounts are pushed after the file-backed mounts, and
turn an absent file-mount list into a present one. -/
def merged_volume_mounts (service : DeployableService)
    (persistent_volume_map : Option (List (String × PersistentVolumeClaim))) :
    Option (List VolumeMount) :=
  match persistent_volume_map with
  | some pv_map =>
    some (((file_volume_mounts service).getD []) ++
      pv_map.map (fun pp => pvc_volume_mount_payload pp.1 pp.2))
  | none => file_volume_mounts service

/-- Transcription of the volume merge in `deployment_payload`. -/
def merged_volumes (app_name : AppName) (service : DeployableService)
    (persistent_volume_map : Option (List (String × PersistentVolumeClaim))) :
    Option (List Volume) :=
  match persistent_volume_map with
  | some pv_map =>
    some (((file_volumes app_name service).getD []) ++
      pv_map.map (fun pp => pvc_volume_payload pp.2))
  | none => file_volumes app_name service

/-- Transcription of `deployment_payload` in `payloads.rs`; `Utc::now()` is
passed in as `now`, the `HashMap` of external volume bindings as an
association list. -/
def deployment_payload (now : String) (app_name : AppName) (service : DeployableService)
    (container_config : ContainerConfig) (use_image_pull_secret : Bool)
    (persistent_volume_map : Option (List (String × PersistentVolumeClaim))) :
    V1Deployment :=
  let env : Option (List EnvVar) :=
    (service.env).map (fun env =>
      env.map (fun e => { name := e.key, value := some e.value }))
  let resources : Option (List (String × String)) :=
    (container_config.memory_limit).map (fun mem_limit =>
      [(("memory"), toString mem_limit)])
  let labels := deployment_labels app_name service
  { metadata :=
      { name := some (app_name.to_rfc1123_namespace_id ++ ("-") ++
          service.service_name ++ ("-deployment"))
        ns := some app_name.to_rfc1123_namespace_id
        labels := some labels
        annotations := some (deployment_meta_annotations service) }
    spec := some
      { replicas := some 1
        selector := { matchLabels := some labels }
        template :=
          { metadata := some
              { labels := some labels
                annotations := some (deployment_annotations now service.strategy) }
            spec := some
              { volumes := merged_volumes app_name service persistent_volume_map
                containers :=
                  [{ name := service.service_name
                     image := some service.image
                     imagePullPolicy := some ("Always")
                     env := env
                     volumeMounts := merged_volume_mounts service persistent_volume_map
                     ports := some [service.port]
                     resources := resources }]
                imagePullSecrets :=
                  if use_image_pull_secret then
                    some [{ name := some (app_name.to_rfc1123_namespace_id ++
                      ("-image-pull-secret")) }]
                  else none } } } }

/-- Transcription of `secrets_payload` in `payloads.rs`; the external base64
engine is passed in as `b64`.  The emitted secret is named with the
normalized identifier, each file keyed by its dot-replaced file name. -/
def secrets_payload (b64 : String → String) (app_name : AppName)
    (service_config : ServiceConfig) (files : List (PathBuf × String)) : V1Secret :=
  let secrets := files.map (fun fc => (secret_name_from_name fc.1, b64 fc.2))
  { metadata :=
      { name := some (app_name.to_rfc1123_namespace_id ++ ("-") ++
          service_config.service_name ++ ("-secret"))
        ns := some app_name.to_rfc1123_namespace_id }
    type_ := some ("Opaque")
    data := some secrets }

/-- Transcription of the inline middleware-name resolution appearing (twice,
verbatim) in `ingress_route_payload` and `middleware_payload`: a reference
passes through unchanged; an inline specification's name is normalized when
it parses as an application identifier and kept verbatim otherwise. -/
def middleware_name (middleware : TraefikMiddleware) : String :=
  match middleware with
  | TraefikMiddleware.ref name => name
  | TraefikMiddleware.spec name _ =>
    match AppName.from_str name with
    | some an => an.to_rfc1123_namespace_id
    | none => name

/-- Transcription of `ingress_route_payload` in `payloads.rs` (metadata
annotation list written in `BTreeMap` key order). -/
def ingress_route_payload (app_name : AppName) (service : DeployableService) :
    IngressRoute :=
  let rules := service.routes.map (fun route =>
    let middlewares := route.middlewares.map (fun middleware =>
      { name := middleware_name middleware : TraefikRuleMiddleware })
    { kind := ("Rule")
      matchRule := route.rule.raw
      middlewares := some middlewares
      services := [{ kind := some ("Service")
                     name := service.service_name
                     port := some service.port }] : TraefikRuleSpec })
  { metadata :=
      { name := some (app_name.to_rfc1123_namespace_id ++ ("-") ++
          service.service_name ++ ("-ingress-route"))
        ns := some app_name.to_rfc1123_namespace_id
        annotations := some
          [(APP_NAME_LABEL, app_name.raw),
           (CONTAINER_TYPE_LABEL, service.container_type.render),
           (SERVICE_NAME_LABEL, service.service_name),
           (("traefik.ingress.kubernetes.io/router.entrypoints"), ("web"))] }
    spec := { routes := some rules } }

/-- Transcription of the `filter_map` closure of `middleware_payload`: a
reference is dropped, an inline specification is kept as its resolved name
paired with its opaque spec. -/
def materialize_middleware (middleware : TraefikMiddleware) : Option (String × String) :=
  match middleware with
  | TraefikMiddleware.ref _ => none
  | TraefikMiddleware.spec name spec =>
    some (middleware_name (TraefikMiddleware.spec name spec), spec)

/-- Transcription of `middleware_payload` in `payloads.rs`: references are
filtered out, inline specifications are materialized under their resolved
name. -/
def middleware_payload (app_name : AppName) (service : DeployableService) :
    List Middleware :=
  ((service.routes.flatMap (fun r =>
      r.middlewares.filterMap materialize_middleware)).map
    (fun ns_spec =>
      { metadata :=
          { name := some ns_spec.1
            ns := some app_name.to_rfc1123_namespace_id }
        spec := ns_spec.2 }))

/-- Transcription of `get_configs_of_app` in `infrastructure.rs`, applied to
an already-obtained `get_services` result (the `MultiMap` is modelled as an
association list, `get_vec` as `List.lookup`). -/
def get_configs_of_app (services : List (AppName × List Service))
    (app_name : AppName) : List ServiceConfig :=
  match services.lookup app_name with
  | none => []
  | some ss =>
    (ss.filter (fun service =>
      service.container_type == ContainerType.Instance ||
      service.container_type == ContainerType.Replica)).map (fun service => service.config)

/-- Pod-template metadata of a synthesized workload. -/
def pod_template_meta (d : V1Deployment) : Option ObjectMeta :=
  (d.spec).bind (fun s => s.template.metadata)

/-- Pod-template annotation map of a synthesized workload. -/
def pod_template_annotations (d : V1Deployment) : Option (List (String × String)) :=
  (pod_template_meta d).bind (fun m => m.annotations)

/-- Pod-template label map of a synthesized workload. -/
def pod_template_labels (d : V1Deployment) : Option (List (String × String)) :=
  (pod_template_meta d).bind (fun m => m.labels)

/-- Selector match-labels of a synthesized workload. -/
def selector_match_labels (d : V1Deployment) : Option (List (String × String)) :=
  (d.spec).bind (fun s => s.selector.matchLabels)

/-- Annotation map on the workload object itself. -/
def workload_meta_annotations (d : V1Deployment) : Option (List (String × String)) :=
  d.metadata.annotations

/-- Pod spec of a synthesized workload. -/
def pod_spec_of (d : V1Deployment) : Option PodSpec :=
  (d.spec).bind (fun s => s.template.spec)

/-- Volume list of a synthesized workload's pod. -/
def pod_volumes (d : V1Deployment) : Option (List Volume) :=
  (pod_spec_of d).bind (fun ps => ps.volumes)

/-- Volume-mount list of the (single) container of a synthesized workload. -/
def pod_volume_mounts (d : V1Deployment) : Option (List VolumeMount) :=
  (pod_spec_of d).bind (fun ps => (ps.containers.head?).bind (fun c => c.volumeMounts))

/-- Whether a conversion outcome is a recoverable (returned) error. -/
def returns_recoverable_error (o : Outcome (Except String TraefikIngressRoute)) : Bool :=
  match o with
  | Outcome.ret (Except.error _) => true
  | _ => false

/-- Secret name referenced by the first volume of a synthesized workload. -/
def first_volume_secret_name (d : V1Deployment) : Option String :=
  (((pod_volumes d).getD []).head?).bind (fun v => (v.secret).bind (fun s => s.secretName))

/-- A stored routing-route object that declares zero routes. -/
def zero_routes_ingress_route : IngressRoute :=
  { spec := { routes := some [] } }

/-- C1: the claim says the conversion of a stored routing-route object with
zero routes or an unparsable match rule back into the internal route model
returns a recoverable parse error.  The code instead calls `.unwrap()` and
panics: on the zero-routes object it aborts for every possible rule parser,
and on no input whatsoever does it return a recoverable error (the declared
error type is never constructed). -/
theorem c1_round_trip_rejection_aborts_instead_of_erroring :
    (∀ from_str_rule, try_from from_str_rule zero_routes_ingress_route = Outcome.fatal)
    ∧ (∀ from_str_rule value,
        returns_recoverable_error (try_from from_str_rule value) = false) := by
  constructor
  · intro from_str_rule
    rfl
  · intro from_str_rule value
    unfold try_from
    split
    · rfl
    · split
      · rfl
      · split
        · rfl
        · rfl

/-- The mounted-file path `/etc/mysql/my.cnf` from the repository's tests. -/
def my_cnf_path : PathBuf := ⟨true, ["etc", "mysql", "my.cnf"]⟩

/-- A one-file mounted-file map for service `db`. -/
def my_app_files : List (PathBuf × String) := [(my_cnf_path, "file-content")]

/-- The `db` descriptor of the repository's tests, with one mounted file. -/
def db_file_service : DeployableService :=
  { service_name := "db"
    image := "docker.io/library/mariadb:10.3.17"
    container_type := ContainerType.Instance
    port := 80
    env := none
    files := some my_app_files
    strategy := DeploymentStrategy.redeployAlways
    routes := [] }

/-- The `db` service configuration used by `secrets_payload`. -/
def db_service_config : ServiceConfig := ⟨"db", ContainerType.Instance⟩

/-- C2: the claim says each file-backed volume references a secret named
with the normalized application identifier, byte-identical to the name of the
secret object emitted by `secrets_payload`.  For the mixed-case identifier
`MY-APP` the workload's volume references `MY-APP-db-secret` (the raw
identifier, via `Display`), while the secret object is named
`my-app-db-secret` (normalized) — the two names differ. -/
theorem c2_file_secret_name_mismatch_on_mixed_case :
    first_volume_secret_name
        (deployment_payload ("2020-01-01T00:00:00Z") ⟨"MY-APP"⟩ db_file_service
          ⟨none⟩ false none)
      = some ("MY-APP-db-secret")
    ∧ (secrets_payload id ⟨"MY-APP"⟩ db_service_config my_app_files).metadata.name
      = some ("my-app-db-secret")
    ∧ ((("MY-APP-db-secret" : String) == ("my-app-db-secret" : String)) = false) := by
  refine ⟨by decide, by decide, by decide⟩

/-- The pod-volume list of a synthesized workload is the merged volume list. -/
theorem pod_volumes_deployment_payload (now : String) (app_name : AppName)
    (service : DeployableService) (container_config : ContainerConfig)
    (use_image_pull_secret : Bool)
    (persistent_volume_map : Option (List (String × PersistentVolumeClaim))) :
    pod_volumes (deployment_payload now app_name service container_config
        use_image_pull_secret persistent_volume_map)
      = merged_volumes app_name service persistent_volume_map := rfl

/-- The container volume-mount list of a synthesized workload is the merged
mount list. -/
theorem pod_volume_mounts_deployment_payload (now : String) (app_name : AppName)
    (service : DeployableService) (container_config : ContainerConfig)
    (use_image_pull_secret : Bool)
    (persistent_volume_map : Option (List (String × PersistentVolumeClaim))) :
    pod_volume_mounts (deployment_payload now app_name service container_config
        use_image_pull_secret persistent_volume_map)
      = merged_volume_mounts service persistent_volume_map := rfl

/-- The secret-item key of a file is its bare file name with dots replaced by
dashes. -/
theorem secret_name_from_name_eq_dots (p : PathBuf) :
    secret_name_from_name p = dots_to_dashes ((p.fileName).getD ("")) := by
  cases h : p.fileName
  · simp only [secret_name_from_name, h, Option.map_none', Option.getD_none]
    rfl
  · simp only [secret_name_from_name, h, Option.map_some', Option.getD_some]

/-- C3: for a descriptor with mounted files, workload synthesis produces
exactly one volume-mount and one secret-backed volume per distinct parent
directory of the mounted paths (the distinct-parent list has no duplicates
and each file's parent occurs in it exactly once), the mount path being the
parent directory; each file of a group becomes exactly one secret item whose
key is the file name with dots replaced by dashes and whose mount-relative
path is the bare file name. -/
theorem c3_file_volume_grouping (now : String) (app_name : AppName)
    (service : DeployableService) (container_config : ContainerConfig)
    (use_image_pull_secret : Bool) (files : List (PathBuf × String))
    (h : service.files = some files) :
    pod_volume_mounts (deployment_payload now app_name service container_config
        use_image_pull_secret none)
      = some (((files.filterMap (fun fc => fc.1.parent)).dedup).map (fun path =>
          { name := secret_name_from_path path, mountPath := path.render }))
    ∧ ((files.filterMap (fun fc => fc.1.parent)).dedup).Nodup
    ∧ pod_volumes (deployment_payload now app_name service container_config
        use_image_pull_secret none)
      = some ((group_by_parent files).map (fun group =>
          { name := secret_name_from_path group.1
            secret := some
              { secretName := some (app_name.raw ++ ("-") ++
                  service.service_name ++ ("-secret"))
                items := some (group.2.map (fun path =>
                  { key := secret_name_from_name path
                    path := (path.fileName).getD ("") })) }
            persistentVolumeClaim := none }))
    ∧ group_by_parent files
      = ((files.filterMap (fun fc => fc.1.parent)).dedup).map (fun parent =>
          (parent,
            (files.filter (fun fc => fc.1.parent == some parent)).map (fun fc => fc.1)))
    ∧ (∀ fc ∈ files, ∀ parent, fc.1.parent = some parent →
        ((files.filterMap (fun fc => fc.1.parent)).dedup).count parent = 1)
    ∧ (∀ p : PathBuf, secret_name_from_name p = dots_to_dashes ((p.fileName).getD (""))) := by
  refine ⟨?_, List.nodup_dedup _, ?_, rfl, ?_, secret_name_from_name_eq_dots⟩
  · have step : pod_volume_mounts (deployment_payload now app_name service
        container_config use_image_pull_secret none) = file_volume_mounts service := rfl
    rw [step]
    unfold file_volume_mounts
    rw [h]
    rfl
  · have step : pod_volumes (deployment_payload now app_name service
        container_config use_image_pull_secret none) = file_volumes app_name service := rfl
    rw [step]
    unfold file_volumes
    rw [h]
    rfl
  · intro fc hfc parent hparent
    refine List.count_eq_one_of_mem (List.nodup_dedup _) ?_
    exact List.mem_dedup.mpr (List.mem_filterMap.mpr ⟨fc, hfc, hparent⟩)

/-- Mounted-file list with two files sharing one parent directory and a
third file in another directory. -/
def c3_files : List (PathBuf × String) :=
  [(⟨true, ["etc", "mysql", "my.cnf"]⟩, "a"),
   (⟨true, ["etc", "mysql", "extra.cnf"]⟩, "b"),
   (⟨true, ["opt", "conf.d", "app.toml"]⟩, "c")]

/-- Descriptor carrying the three-file mounted-file list. -/
def c3_service : DeployableService :=
  { db_file_service with files := some c3_files }

/-- Witness for C3: at the three-file descriptor the synthesized workload has
exactly two volume-mounts, one per distinct parent directory. -/
theorem c3_file_volume_grouping_witness :
    c3_service.files = some c3_files
    ∧ pod_volume_mounts (deployment_payload ("T") ⟨"master"⟩ c3_service ⟨none⟩ false none)
      = some [⟨"etc-mysql", "/etc/mysql"⟩, ⟨"opt-conf-d", "/opt/conf.d"⟩] := by
  refine ⟨rfl, ?_⟩
  have h := c3_file_volume_grouping ("T") ⟨"master"⟩ c3_service ⟨none⟩ false c3_files rfl
  rw [h.1]
  decide

/-- C4: the redeploy-strategy annotation is placed on the pod template of the
synthesized workload; pinned-to-image-hash yields exactly `imageHash` with
the pinned hash, never-force an empty annotation map, and always-force
exactly `date` with the synthesis-time wall clock.  The workload object's own
annotation map carries no `date` or `imageHash` entry. -/
theorem c4_strategy_annotation_on_pod_template (now : String) (app_name : AppName)
    (service : DeployableService) (container_config : ContainerConfig)
    (use_image_pull_secret : Bool)
    (persistent_volume_map : Option (List (String × PersistentVolumeClaim)))
    (image_id : String) :
    pod_template_annotations (deployment_payload now app_name service container_config
        use_image_pull_secret persistent_volume_map)
      = some (deployment_annotations now service.strategy)
    ∧ deployment_annotations now (DeploymentStrategy.redeployOnImageUpdate image_id)
      = [(("imageHash"), image_id)]
    ∧ deployment_annotations now DeploymentStrategy.redeployNever = []
    ∧ deployment_annotations now DeploymentStrategy.redeployAlways = [(("date"), now)]
    ∧ (∀ kv ∈ (workload_meta_annotations (deployment_payload now app_name service
          container_config use_image_pull_secret persistent_volume_map)).getD [],
        kv.1 ≠ ("date") ∧ kv.1 ≠ ("imageHash")) := by
  refine ⟨rfl, rfl, rfl, rfl, ?_⟩
  intro kv hkv
  have step : workload_meta_annotations (deployment_payload now app_name service
      container_config use_image_pull_secret persistent_volume_map)
      = some (deployment_meta_annotations service) := rfl
  rw [step] at hkv
  unfold deployment_meta_annotations at hkv
  rcases henv : (service.env).bind replicated_environment_variable_to_json with _ | r
  all_goals rw [henv] at hkv
  · simp only [Option.getD_some, List.mem_cons, List.not_mem_nil, or_false] at hkv
    subst hkv
    refine ⟨?_, ?_⟩
    · show IMAGE_LABEL ≠ ("date")
      decide
    · show IMAGE_LABEL ≠ ("imageHash")
      decide
  · simp only [Option.getD_some, List.mem_cons, List.not_mem_nil, or_false] at hkv
    rcases hkv with hkv | hkv
    all_goals subst hkv
    · refine ⟨?_, ?_⟩
      · show IMAGE_LABEL ≠ ("date")
        decide
      · show IMAGE_LABEL ≠ ("imageHash")
        decide
    · refine ⟨?_, ?_⟩
      · show REPLICATED_ENV_LABEL ≠ ("date")
        decide
      · show REPLICATED_ENV_LABEL ≠ ("imageHash")
        decide

/-- Witness for C4: the always-force `db` descriptor puts exactly the `date`
annotation on the pod template, and the image annotation on the workload
object is not a forcing annotation. -/
theorem c4_strategy_annotation_on_pod_template_witness :
    pod_template_annotations (deployment_payload ("2020-01-01T00:00:00Z") ⟨"master"⟩
        db_file_service ⟨none⟩ false none)
      = some [(("date"), ("2020-01-01T00:00:00Z"))]
    ∧ (IMAGE_LABEL, ("docker.io/library/mariadb:10.3.17"))
        ∈ (workload_meta_annotations (deployment_payload ("2020-01-01T00:00:00Z")
            ⟨"master"⟩ db_file_service ⟨none⟩ false none)).getD []
    ∧ IMAGE_LABEL ≠ ("date") := by
  have h := c4_strategy_annotation_on_pod_template ("2020-01-01T00:00:00Z") ⟨"master"⟩
    db_file_service ⟨none⟩ false none ("sha256-abc")
  refine ⟨by rw [h.1]; rfl, by decide, ?_⟩
  exact (h.2.2.2.2 (IMAGE_LABEL, ("docker.io/library/mariadb:10.3.17")) (by decide)).1

/-- C5: the synthesized workload's selector match-labels are exactly the
label set made of the raw application name, the service name, and the
container type, the identical set also appears as the workload metadata
labels and the pod-template labels, and the workload name is the normalized
application identifier, the service name, and the `-deployment` suffix. -/
theorem c5_selector_equals_label_set (now : String) (app_name : AppName)
    (service : DeployableService) (container_config : ContainerConfig)
    (use_image_pull_secret : Bool)
    (persistent_volume_map : Option (List (String × PersistentVolumeClaim))) :
    selector_match_labels (deployment_payload now app_name service container_config
        use_image_pull_secret persistent_volume_map)
      = some [(("com.aixigo.preview.servant.app-name"), app_name.raw),
          (("com.aixigo.preview.servant.container-type"), service.container_type.render),
          (("com.aixigo.preview.servant.service-name"), service.service_name)]
    ∧ (deployment_payload now app_name service container_config
        use_image_pull_secret persistent_volume_map).metadata.labels
      = selector_match_labels (deployment_payload now app_name service container_config
          use_image_pull_secret persistent_volume_map)
    ∧ pod_template_labels (deployment_payload now app_name service container_config
        use_image_pull_secret persistent_volume_map)
      = selector_match_labels (deployment_payload now app_name service container_config
          use_image_pull_secret persistent_volume_map)
    ∧ (deployment_payload now app_name service container_config
        use_image_pull_secret persistent_volume_map).metadata.name
      = some (app_name.to_rfc1123_namespace_id ++ ("-") ++
          service.service_name ++ ("-deployment")) := by
  exact ⟨rfl, rfl, rfl, rfl⟩

/-- C6: namespace synthesis names the namespace with the lowercase identifier,
records the raw identifier under the application-name label, omits the
annotations field entirely exactly when the runtime is not Kubernetes or the
operator-supplied namespace annotation map is empty, and copies the map
through verbatim otherwise. -/
theorem c6_namespace_synthesis (app_name : AppName) (config : Config) :
    (namespace_payload app_name config).metadata.name
      = some (String.mk (app_name.raw.data.map Char.toLower))
    ∧ (namespace_payload app_name config).metadata.labels
      = some [(("com.aixigo.preview.servant.app-name"), app_name.raw)]
    ∧ ((namespace_payload app_name config).metadata.annotations = none ↔
        (config.runtime = Runtime.docker ∨ config.runtime = Runtime.kubernetes []))
    ∧ (∀ ann, config.runtime = Runtime.kubernetes ann → ann ≠ [] →
        (namespace_payload app_name config).metadata.annotations = some ann) := by
  obtain ⟨runtime⟩ := config
  refine ⟨rfl, rfl, ?_, ?_⟩
  · cases runtime with
    | docker => simp [namespace_payload]
    | kubernetes ann =>
      cases ann with
      | nil => simp [namespace_payload]
      | cons a l => simp [namespace_payload]
  · intro ann hc hne
    subst hc
    cases ann with
    | nil => exact absurd rfl hne
    | cons a l => rfl

/-- Witness for C6: a non-empty operator-supplied annotation map is copied
through verbatim (the annotation pair of the repository's tests). -/
theorem c6_namespace_synthesis_witness :
    (⟨Runtime.kubernetes [(("field.cattle.io/projectId"), ("rancher-project-id"))]⟩ :
        Config).runtime
      = Runtime.kubernetes [(("field.cattle.io/projectId"), ("rancher-project-id"))]
    ∧ ((namespace_payload ⟨"myapp"⟩
        ⟨Runtime.kubernetes
          [(("field.cattle.io/projectId"), ("rancher-project-id"))]⟩).metadata.annotations)
      = some [(("field.cattle.io/projectId"), ("rancher-project-id"))] := by
  refine ⟨rfl, ?_⟩
  exact (c6_namespace_synthesis ⟨"myapp"⟩
    ⟨Runtime.kubernetes [(("field.cattle.io/projectId"), ("rancher-project-id"))]⟩).2.2.2
    _ rfl (by decide)

/-- C7: the derived helper returns exactly the configurations of the services
whose container role is instance or replica (an order-preserving sublist of
the stored list, every member of which has one of the two roles), and an
application identifier absent from the `get_services` result yields the empty
list. -/
theorem c7_get_configs_filters_instances_and_replicas
    (services : List (AppName × List Service)) (app_name : AppName) :
    (services.lookup app_name = none → get_configs_of_app services app_name = [])
    ∧ (∀ ss, services.lookup app_name = some ss →
        get_configs_of_app services app_name
          = (ss.filter (fun service =>
              service.container_type == ContainerType.Instance ||
              service.container_type == ContainerType.Replica)).map
              (fun service => service.config)
        ∧ List.Sublist (ss.filter (fun service =>
              service.container_type == ContainerType.Instance ||
              service.container_type == ContainerType.Replica)) ss
        ∧ (∀ s ∈ ss.filter (fun service =>
              service.container_type == ContainerType.Instance ||
              service.container_type == ContainerType.Replica),
            s.container_type = ContainerType.Instance ∨
            s.container_type = ContainerType.Replica)) := by
  constructor
  · intro h
    unfold get_configs_of_app
    rw [h]
  · intro ss h
    refine ⟨?_, List.filter_sublist _, ?_⟩
    · unfold get_configs_of_app
      rw [h]
    · intro s hs
      rw [List.mem_filter] at hs
      have hp := hs.2
      simp only [Bool.or_eq_true, beq_iff_eq] at hp
      exact hp

/-- A mixed `get_services` result with one instance, one companion, and one
replica under the application `master`. -/
def c7_services : List (AppName × List Service) :=
  [(⟨"master"⟩,
    [⟨ContainerType.Instance, ⟨"svc-a", ContainerType.Instance⟩⟩,
     ⟨ContainerType.ApplicationCompanion, ⟨"svc-b", ContainerType.ApplicationCompanion⟩⟩,
     ⟨ContainerType.Replica, ⟨"svc-c", ContainerType.Replica⟩⟩])]

/-- Witness for C7: on the mixed list the helper keeps exactly the instance
and replica configurations in order, and an unknown identifier yields the
empty list. -/
theorem c7_get_configs_filters_instances_and_replicas_witness :
    get_configs_of_app c7_services ⟨"master"⟩
      = [⟨"svc-a", ContainerType.Instance⟩, ⟨"svc-c", ContainerType.Replica⟩]
    ∧ get_configs_of_app c7_services ⟨"other"⟩ = [] := by
  constructor
  · have h := (c7_get_configs_filters_instances_and_replicas c7_services ⟨"master"⟩).2
      ((c7_services.head?.map (fun p => p.2)).getD []) (by decide)
    rw [h.1]
    decide
  · exact (c7_get_configs_filters_instances_and_replicas c7_services ⟨"other"⟩).1 (by decide)

/-- C8: for every entry of the external-volume-binding map, workload
synthesis appends exactly one volume-mount at the declared path and one
volume referencing the binding's claim, both named from the binding's
storage-class-kind label (the literal `default` when absent) with the
`-volume` suffix, and these are present even when the descriptor mounts no
files. -/
theorem c8_external_volume_bindings (now : String) (app_name : AppName)
    (service : DeployableService) (container_config : ContainerConfig)
    (use_image_pull_secret : Bool)
    (pv_map : List (String × PersistentVolumeClaim)) :
    pod_volume_mounts (deployment_payload now app_name service container_config
        use_image_pull_secret (some pv_map))
      = some (((file_volume_mounts service).getD []) ++
          pv_map.map (fun pp => pvc_volume_mount_payload pp.1 pp.2))
    ∧ pod_volumes (deployment_payload now app_name service container_config
        use_image_pull_secret (some pv_map))
      = some (((file_volumes app_name service).getD []) ++
          pv_map.map (fun pp => pvc_volume_payload pp.2))
    ∧ (∀ path pvc, pvc_volume_mount_payload path pvc =
        { name := ((((pvc.metadata.labels).getD []).lookup STORAGE_TYPE_LABEL).getD
            ("default")) ++ ("-volume")
          mountPath := path })
    ∧ (∀ pvc, pvc_volume_payload pvc =
        { name := ((((pvc.metadata.labels).getD []).lookup STORAGE_TYPE_LABEL).getD
            ("default")) ++ ("-volume")
          secret := none
          persistentVolumeClaim := some { claimName := (pvc.metadata.name).getD ("") } })
    ∧ (service.files = none →
        pod_volume_mounts (deployment_payload now app_name service container_config
            use_image_pull_secret (some pv_map))
          = some (pv_map.map (fun pp => pvc_volume_mount_payload pp.1 pp.2))
        ∧ pod_volumes (deployment_payload now app_name service container_config
            use_image_pull_secret (some pv_map))
          = some (pv_map.map (fun pp => pvc_volume_payload pp.2))) := by
  refine ⟨rfl, rfl, fun path pvc => rfl, fun pvc => rfl, ?_⟩
  intro hf
  constructor
  · rw [pod_volume_mounts_deployment_payload]
    unfold merged_volume_mounts file_volume_mounts
    rw [hf]
    rfl
  · rw [pod_volumes_deployment_payload]
    unfold merged_volumes file_volumes
    rw [hf]
    rfl

/-- The externally created storage claim of the repository's tests, labeled
with storage kind `data`. -/
def data_pvc : PersistentVolumeClaim :=
  { metadata :=
      { name := some ("master-db-pvc-abc")
        ns := some ("master")
        labels := some
          [(APP_NAME_LABEL, ("master")),
           (SERVICE_NAME_LABEL, ("db")),
           (STORAGE_TYPE_LABEL, ("data"))] } }

/-- The `db` descriptor with no mounted files. -/
def no_files_service : DeployableService :=
  { db_file_service with files := none }

/-- Witness for C8: with no mounted files and one external binding at
`/var/lib/data`, the workload carries exactly the `data-volume` mount and the
volume referencing the claim. -/
theorem c8_external_volume_bindings_witness :
    no_files_service.files = none
    ∧ pod_volume_mounts (deployment_payload ("T") ⟨"master"⟩ no_files_service ⟨none⟩
        false (some [(("/var/lib/data"), data_pvc)]))
      = some [⟨"data-volume", "/var/lib/data"⟩]
    ∧ pod_volumes (deployment_payload ("T") ⟨"master"⟩ no_files_service ⟨none⟩
        false (some [(("/var/lib/data"), data_pvc)]))
      = some [{ name := ("data-volume")
                secret := none
                persistentVolumeClaim := some ⟨"master-db-pvc-abc"⟩ }] := by
  have h := c8_external_volume_bindings ("T") ⟨"master"⟩ no_files_service ⟨none⟩ false
    [(("/var/lib/data"), data_pvc)]
  refine ⟨rfl, ?_, ?_⟩
  · rw [(h.2.2.2.2 rfl).1]
    decide
  · rw [(h.2.2.2.2 rfl).2]
    decide

/-- Middleware-name lists of every rule of an emitted routing-route object. -/
def rule_middleware_names (r : IngressRoute) : List (List String) :=
  ((r.spec.routes).getD []).map (fun rule =>
    ((rule.middlewares).getD []).map (fun m => m.name))

/-- Un-resolved inline middleware specifications of a descriptor, in route
order: name and opaque spec of every `Spec` middleware, with every `Ref`
dropped. -/
def spec_middlewares_of (service : DeployableService) : List (String × String) :=
  service.routes.flatMap (fun r =>
    r.middlewares.filterMap (fun middleware =>
      match middleware with
      | TraefikMiddleware.ref _ => none
      | TraefikMiddleware.spec name spec => some (name, spec)))

/-- One middleware list: materialized names are the resolved names of the
inline specifications, with references dropped. -/
theorem materialize_names_filterMap (l : List TraefikMiddleware) :
    ((l.filterMap materialize_middleware).map
      (fun ns_spec => (some ns_spec.1 : Option String)))
    = ((l.filterMap (fun middleware =>
        match middleware with
        | TraefikMiddleware.ref _ => none
        | TraefikMiddleware.spec name spec => some (name, spec))).map
        (fun p => some (middleware_name (TraefikMiddleware.spec p.1 p.2)))) := by
  induction l with
  | nil => rfl
  | cons m rest ih =>
    cases m with
    | ref n => simpa [List.filterMap_cons, materialize_middleware] using ih
    | spec n s => simp [List.filterMap_cons, materialize_middleware, ih]

/-- The materialized middleware objects carry exactly the resolved names of
the descriptor's inline middleware specifications. -/
theorem middleware_payload_names (app_name : AppName) (service : DeployableService) :
    (middleware_payload app_name service).map (fun m => m.metadata.name)
    = (spec_middlewares_of service).map
        (fun p => some (middleware_name (TraefikMiddleware.spec p.1 p.2))) := by
  unfold middleware_payload spec_middlewares_of
  rw [List.map_map]
  generalize service.routes = rs
  induction rs with
  | nil => rfl
  | cons r rest ih =>
    rw [List.flatMap_cons, List.flatMap_cons, List.map_append, List.map_append, ih]
    congr 1
    exact materialize_names_filterMap r.middlewares

/-- C9: every emitted rule's middleware list is the per-route map of the
name-resolution function, which leaves a `Ref` name unchanged; an inline
`Spec` middleware whose name is a valid application identifier is renamed to
the lowercase form, and the separately materialized middleware objects carry
exactly the resolved names of the inline specifications (references are
never materialized). -/
theorem c9_middleware_resolution (app_name : AppName) (service : DeployableService) :
    rule_middleware_names (ingress_route_payload app_name service)
      = service.routes.map (fun route => route.middlewares.map middleware_name)
    ∧ (∀ name, middleware_name (TraefikMiddleware.ref name) = name)
    ∧ (∀ name spec, AppName.from_str name = some ⟨name⟩ →
        middleware_name (TraefikMiddleware.spec name spec)
          = String.mk (name.data.map Char.toLower))
    ∧ (middleware_payload app_name service).map (fun m => m.metadata.name)
      = (spec_middlewares_of service).map
          (fun p => some (middleware_name (TraefikMiddleware.spec p.1 p.2))) := by
  refine ⟨?_, fun name => rfl, ?_, middleware_payload_names app_name service⟩
  · simp [rule_middleware_names, ingress_route_payload, List.map_map, Function.comp]
  · intro name spec h
    simp [middleware_name, h, AppName.to_rfc1123_namespace_id]

/-- Witness for C9: a `Ref` passes through unchanged, and a `Spec` named by
the valid mixed-case identifier `MY-APP` resolves to `my-app`. -/
theorem c9_middleware_resolution_witness :
    AppName.from_str ("MY-APP") = some ⟨"MY-APP"⟩
    ∧ middleware_name (TraefikMiddleware.spec ("MY-APP") ("strip")) = "my-app"
    ∧ middleware_name (TraefikMiddleware.ref ("Keep-Me")) = "Keep-Me" := by
  have h := c9_middleware_resolution ⟨"master"⟩ db_file_service
  refine ⟨by decide, ?_, h.2.1 ("Keep-Me")⟩
  have h3 := h.2.2.1 ("MY-APP") ("strip") (by decide)
  rw [h3]
  decide

/-- A descriptor with a single route carrying a single inline middleware
specification. -/
def single_spec_route_service (name spec' : String) : DeployableService :=
  { db_file_service with
    routes := [⟨⟨"PathPrefix:/master/db/"⟩, [TraefikMiddleware.spec name spec']⟩] }

/-- C10: an inline `Spec` middleware whose name does not parse as an
application identifier keeps its original name unchanged, both in the route's
middleware reference and in the materialized middleware object, and
resolution never fails on such a name. -/
theorem c10_unparsable_spec_name_passes_through (app_name : AppName)
    (name spec' : String) (h : AppName.from_str name = none) :
    middleware_name (TraefikMiddleware.spec name spec') = name
    ∧ rule_middleware_names
        (ingress_route_payload app_name (single_spec_route_service name spec'))
      = [[name]]
    ∧ (middleware_payload app_name (single_spec_route_service name spec')).map
        (fun m => m.metadata.name)
      = [some name] := by
  have h1 : middleware_name (TraefikMiddleware.spec name spec') = name := by
    simp [middleware_name, h]
  refine ⟨h1, ?_, ?_⟩
  · simp [rule_middleware_names, ingress_route_payload, single_spec_route_service, h1]
  · simp [middleware_payload, single_spec_route_service, materialize_middleware, h1]

/-- Witness for C10: the name `my_app` (underscore) is not a valid
application identifier and passes through the resolution unchanged. -/
theorem c10_unparsable_spec_name_passes_through_witness :
    AppName.from_str ("my_app") = none
    ∧ middleware_name (TraefikMiddleware.spec ("my_app") ("strip")) = "my_app" := by
  refine ⟨by decide, ?_⟩
  exact (c10_unparsable_spec_name_passes_through ⟨"master"⟩ ("my_app") ("strip")
    (by decide)).1
